import Mathlib

/-!
# EcoTrail Gear API — verification of the catalog listing service

Shallow embedding of `src/main.py` (FastAPI route handlers) and the parts of
the data model from `src/schemas.py` that the listing, impact and review
endpoints use.  The document store (`database.py`, imported by `main.py` but
not part of `src/`) is an external capability; where its behaviour decides a
property, it is modelled from the spec (see the `Modelled from the spec:` doc
comments).  Python floats are modelled as `Rat` (the code only builds,
compares and transports them; no float rounding is involved in any property
proved here).
-/

namespace EcoTrail

/-- A product document as stored/returned by the service.  Fields are the ones
read by `list_products` (`src/main.py`) plus the literal fields of the demo
fallback items; optional schema fields (`schemas.py:Product`) are `Option`s.
`id` is the public identifier (fallback items carry it literally; store
documents receive it from `_id` normalization). -/
structure ProductDoc where
  id : String := ""
  title : Option String := none
  description : Option String := none
  category : String := ""
  activity_types : List String := []
  seasons : List String := []
  sustainability_features : List String := []
  price : Rat := 0
  sale_price : Option Rat := none
  currency : String := "USD"
  rating : Rat := 0
  review_count : Nat := 0
  eco_badge : Option String := none
  images : List String := []
deriving DecidableEq, Repr

/-- The query parameters of `GET /api/products` (`src/main.py`, `list_products`
signature, lines 72–84), with their declared defaults.  `sort` is a plain
optional string: the `enum=[...]` keyword passed to `Query` is an extra
JSON-schema kwarg in FastAPI and performs no validation, so any string reaches
the handler body. -/
structure ListParams where
  q : Option String := none
  category : Option String := none
  activity : Option String := none
  season : Option String := none
  sustainable : Option String := none
  min_price : Option Rat := none
  max_price : Option Rat := none
  sort : Option String := some "relevance"
  page : Int := 1
  page_size : Int := 12
deriving Repr

/-- Python truthiness of an optional string (`if q:`): `None` and `""` are
falsy, every other string truthy. -/
def pyTruthy : Option String → Bool
  | none => false
  | some s => s != ""

/-- The Mongo filter document `filter_q` built by `list_products`
(`src/main.py` lines 86–108): each field is `some _` exactly when the
corresponding key is put into the dict.  `price` holds the compound
`{$gte: lo, $lte: hi}` range (either bound optional). -/
structure FilterQ where
  qOr : Option String := none
  category : Option String := none
  activity : Option String := none
  season : Option String := none
  sustainable : Option String := none
  price : Option (Option Rat × Option Rat) := none
deriving Repr

/-- Translation of `src/main.py` lines 86–108: a key is added to `filter_q`
only when the parameter is truthy (strings) resp. not `None` (prices). -/
def buildFilter (p : ListParams) : FilterQ :=
  { qOr := if pyTruthy p.q then p.q else none
    category := if pyTruthy p.category then p.category else none
    activity := if pyTruthy p.activity then p.activity else none
    season := if pyTruthy p.season then p.season else none
    sustainable := if pyTruthy p.sustainable then p.sustainable else none
    price :=
      if p.min_price.isSome || p.max_price.isSome then
        some (p.min_price, p.max_price)
      else none }

/-- `needle` occurs (case-insensitively) as a contiguous substring of `hay`. -/
def lowerInfix (needle hay : String) : Bool :=
  (hay.toLower.toList.tails).any (fun t => needle.toLower.toList.isPrefixOf t)

/-- A `{field: {$regex: q, $options: "i"}}` clause evaluated on an optional
string field: a missing field never matches; a present field matches when the
needle occurs case-insensitively. -/
def optContainsCI (field : Option String) (needle : String) : Bool :=
  match field with
  | none => false
  | some s => lowerInfix needle s

/-- Modelled from the spec: the store capability `find(collection, predicate)`
lives in `database.py`, which is not under `src/`; §4.1 and §6 of the spec
define how the predicate document built by `list_products` selects documents:
the `$or` clause is a case-insensitive any-position substring test on title or
description, `category` is exact equality, the `$in` clauses are membership
tests on the array fields, and `price` is the inclusive `$gte`/`$lte` range.
All present clauses are conjoined. -/
def matchesFilter (f : FilterQ) (d : ProductDoc) : Bool :=
  (match f.qOr with
   | none => true
   | some qs => optContainsCI d.title qs || optContainsCI d.description qs)
  && (match f.category with
      | none => true
      | some c => d.category == c)
  && (match f.activity with
      | none => true
      | some a => d.activity_types.contains a)
  && (match f.season with
      | none => true
      | some s => d.seasons.contains s)
  && (match f.sustainable with
      | none => true
      | some s => d.sustainability_features.contains s)
  && (match f.price with
      | none => true
      | some (lo, hi) =>
        (match lo with | none => true | some v => decide (v ≤ d.price))
        && (match hi with | none => true | some v => decide (d.price ≤ v)))

/-- Translation of the `sort_spec` chain of `src/main.py` lines 110–117: three
recognized tokens yield a single `(key, direction)` pair, everything else
(including `relevance`, `newest`, `best_sellers`, `most_sustainable` and any
unrecognized token) leaves `sort_spec = None`. -/
def sortSpecOf (sort : Option String) : Option (String × Int) :=
  if sort == some "price_asc" then some ("price", 1)
  else if sort == some "price_desc" then some ("price", -1)
  else if sort == some "highest_rated" then some ("rating", -1)
  else none

/-- Price-ascending comparison used for the `("price", 1)` sort key. -/
def priceLe (a b : ProductDoc) : Prop := a.price ≤ b.price

/-- Price-descending comparison used for the `("price", -1)` sort key. -/
def priceGe (a b : ProductDoc) : Prop := b.price ≤ a.price

/-- Rating-descending comparison used for the `("rating", -1)` sort key. -/
def ratingGe (a b : ProductDoc) : Prop := b.rating ≤ a.rating

instance : DecidableRel priceLe := fun a b => inferInstanceAs (Decidable (a.price ≤ b.price))
instance : DecidableRel priceGe := fun a b => inferInstanceAs (Decidable (b.price ≤ a.price))
instance : DecidableRel ratingGe := fun a b => inferInstanceAs (Decidable (b.rating ≤ a.rating))

instance : IsTotal ProductDoc priceLe := ⟨fun a b => le_total a.price b.price⟩
instance : IsTotal ProductDoc priceGe := ⟨fun a b => le_total b.price a.price⟩
instance : IsTotal ProductDoc ratingGe := ⟨fun a b => le_total b.rating a.rating⟩

instance : IsTrans ProductDoc priceLe := ⟨fun _ _ _ h h' => le_trans h h'⟩
instance : IsTrans ProductDoc priceGe := ⟨fun _ _ _ h h' => le_trans h' h⟩
instance : IsTrans ProductDoc ratingGe := ⟨fun _ _ _ h h' => le_trans h' h⟩

/-- Modelled from the spec: the store executes `cursor.sort(sort_spec)`
(`src/main.py` line 181) server-side; §4.2 of the spec defines the three
orderings (price ascending, price descending, rating descending).  A stable
comparison sort stands in for the store's ordering. -/
def applySort (s : Option (String × Int)) (l : List ProductDoc) : List ProductDoc :=
  match s with
  | none => l
  | some sp =>
    if sp = ("price", 1) then List.insertionSort priceLe l
    else if sp = ("price", -1) then List.insertionSort priceGe l
    else if sp = ("rating", -1) then List.insertionSort ratingGe l
    else l

/-- The `ProductListResponse` shape (`src/main.py` lines 55–59). -/
structure ListResponse where
  items : List ProductDoc
  total : Nat
  page : Int
  page_size : Int
deriving DecidableEq, Repr

/-- First demo item of the fallback dataset (`src/main.py` lines 124–139). -/
def demo1 : ProductDoc :=
  { id := "demo-1"
    title := some "Evergreen Ultralight Tent"
    price := 349
    sale_price := some 299
    currency := "USD"
    category := "Carbon-Neutral Camping Equipment"
    images :=
      [ "https://images.unsplash.com/photo-1501706362039-c06b2d715385?q=80&w=1200&auto=format&fit=crop"
      , "https://images.unsplash.com/photo-1504711434969-e33886168f5c?q=80&w=1200&auto=format&fit=crop" ]
    rating := 4.7
    review_count := 126
    eco_badge := some "Carbon Neutral"
    sustainability_features := ["carbon-neutral", "recycled"] }

/-- Second demo item of the fallback dataset (`src/main.py` lines 140–155). -/
def demo2 : ProductDoc :=
  { id := "demo-2"
    title := some "TrailWave Recycled Fleece"
    price := 129
    sale_price := none
    currency := "USD"
    category := "Recycled Material Hiking Gear"
    images :=
      [ "https://images.unsplash.com/photo-1500530855697-b586d89ba3ee?q=80&w=1200&auto=format&fit=crop"
      , "https://images.unsplash.com/photo-1500534314209-a25ddb2bd429?q=80&w=1200&auto=format&fit=crop" ]
    rating := 4.5
    review_count := 342
    eco_badge := some "Recycled Materials"
    sustainability_features := ["recycled"] }

/-- Third demo item of the fallback dataset (`src/main.py` lines 156–171). -/
def demo3 : ProductDoc :=
  { id := "demo-3"
    title := some "SunSpark Solar Charger"
    price := 99
    sale_price := some 89
    currency := "USD"
    category := "Renewable Energy Outdoor Accessories"
    images :=
      [ "https://images.unsplash.com/photo-1500534315581-c1f6f8a91b9b?q=80&w=1200&auto=format&fit=crop"
      , "https://images.unsplash.com/photo-1469474968028-56623f02e42e?q=80&w=1200&auto=format&fit=crop" ]
    rating := 4.2
    review_count := 88
    eco_badge := some "Renewable Energy"
    sustainability_features := ["renewable"] }

/-- The hardcoded fallback dataset `demo_items` of `src/main.py` lines
123–172 (returned when no store is configured). -/
def demoItems : List ProductDoc := [demo1, demo2, demo3]

/-- Effective index of a Python slice bound `i` on a sequence of length `L`:
negative indices count from the end and clamp at `0`; non-negative indices
clamp at `L`. -/
def pyIdx (L : Nat) (i : Int) : Nat :=
  if i < 0 then ((L : Int) + i).toNat else min i.toNat L

/-- Python list slicing `l[a:b]` (step 1), as used in
`demo_items[start:end]` (`src/main.py` line 176). -/
def pySlice (l : List α) (a b : Int) : List α :=
  let s := pyIdx l.length a
  let e := pyIdx l.length b
  (l.drop s).take (e - s)

/-- The fallback branch of `list_products` (`src/main.py` lines 121–176):
`start = (page - 1) * page_size`, `end = start + page_size`, Python-sliced
demo items, `total = len(demo_items)`.  The filter parameters and the sort
spec are computed but never consulted on this branch. -/
def fallbackList (p : ListParams) : ListResponse :=
  let start := (p.page - 1) * p.page_size
  { items := pySlice demoItems start (start + p.page_size)
    total := demoItems.length
    page := p.page
    page_size := p.page_size }

/-- The store-backed branch of `list_products` (`src/main.py` lines 178–188):
filter, sort, `total = count_documents(filter_q)`, then
`skip((page-1)*page_size).limit(page_size)`.  Modelled from the spec for the
store side: `find`/`count` return the matching documents (`database.py` is not
under `src/`), and a negative skip/limit argument is rejected by the store
driver (the spec calls negative-skip behaviour implementation-defined
passthrough; PyMongo raises, which `main.py` converts to an error response) —
modelled as `none`. -/
def dbListProducts (docs : List ProductDoc) (p : ListParams) : Option ListResponse :=
  let f := buildFilter p
  let filtered := docs.filter (fun d => matchesFilter f d)
  let sorted := applySort (sortSpecOf p.sort) filtered
  let skip := (p.page - 1) * p.page_size
  if skip < 0 ∨ p.page_size < 0 then none
  else
    some { items := (sorted.drop skip.toNat).take p.page_size.toNat
           total := filtered.length
           page := p.page
           page_size := p.page_size }

/-- The whole `list_products` handler (`src/main.py` lines 71–190): when the
store is unconfigured (`db` falsy, line 120) the fallback branch runs,
otherwise the store-backed branch; `none` is the error response. -/
def list_products (store : Option (List ProductDoc)) (p : ListParams) : Option ListResponse :=
  match store with
  | none => some (fallbackList p)
  | some docs => dbListProducts docs p

/-- An `impactstats` document as read from the store: `doc.get(key, default)`
is modelled by `Option` fields with `getD`. -/
structure ImpactDoc where
  trees_planted : Option Int := none
  bottles_recycled : Option Int := none
  carbon_offset_kg : Option Rat := none
deriving Repr

/-- The `ImpactResponse` shape (`src/main.py` lines 27–30). -/
structure ImpactResponse where
  trees_planted : Int
  bottles_recycled : Int
  carbon_offset_kg : Rat
deriving DecidableEq, Repr

/-- The fixed fallback record of `src/main.py` line 47. -/
def impactFallback : ImpactResponse :=
  { trees_planted := 128450
    bottles_recycled := 9723450
    carbon_offset_kg := 654321.5 }

/-- The `get_impact` handler (`src/main.py` lines 33–47).  Its single store
read (`get_documents("impactstats", {}, limit=1)`, from the absent
`database.py`) is passed in as an `Except`: `.error` models any raised
failure (swallowed by the bare `except`), `.ok []` models "no record"; both
fall through to the fixed fallback, and a first document is read with
`doc.get(..., default)` semantics. -/
def get_impact (readResult : Except String (List ImpactDoc)) : ImpactResponse :=
  match readResult with
  | .error _ => impactFallback
  | .ok [] => impactFallback
  | .ok (doc :: _) =>
    { trees_planted := doc.trees_planted.getD 0
      bottles_recycled := doc.bottles_recycled.getD 0
      carbon_offset_kg := doc.carbon_offset_kg.getD 0 }

/-- Values of a schemaless store document (review documents are handled as raw
dicts in `get_reviews`). -/
inductive DVal where
  | str : String → DVal
  | int : Int → DVal
  | num : Rat → DVal
  | bool : Bool → DVal
  | arr : List DVal → DVal
  | obj : List (String × DVal) → DVal
  | null : DVal

/-- Python `dict.pop(key, default)` on an insertion-ordered dict (modelled as
an association list with distinct keys): returns the removed value, or the
default when the key is absent — this two-argument form never raises. -/
def dictPop (k : String) (dflt : α) : List (String × α) → α × List (String × α)
  | [] => (dflt, [])
  | (k', v) :: t =>
    if k' = k then (v, t)
    else
      let r := dictPop k dflt t
      (r.1, (k', v) :: r.2)

/-- Python `dict[key] = value` on an insertion-ordered dict: replaces the value
in place when the key is present, appends otherwise. -/
def dictSet (k : String) (v : α) : List (String × α) → List (String × α)
  | [] => [(k, v)]
  | (k', v') :: t =>
    if k' = k then (k, v) :: t
    else (k', v') :: dictSet k v t

/-- The per-item normalization of `get_reviews` (`src/main.py` line 215):
`item["id"] = str(item.pop("_id", ""))`.  `strFn` is Python's `str` on
document values (on a string it is the identity). -/
def normalizeReviewItem (strFn : DVal → String) (item : List (String × DVal)) :
    List (String × DVal) :=
  let r := dictPop "_id" (DVal.str "") item
  dictSet "id" (DVal.str (strFn r.1)) r.2

/-- The normalization loop of `get_reviews` (`src/main.py` lines 214–216) over
the documents returned by the store for the review query. -/
def get_reviews_normalize (strFn : DVal → String)
    (docs : List (List (String × DVal))) : List (List (String × DVal)) :=
  docs.map (normalizeReviewItem strFn)

theorem demoItems_length : demoItems.length = 3 := rfl

/-- C1: the claim says a request with a sort token outside the recognized set
is rejected at the boundary with a client error before the core runs.  The
code does not do this: `Query(enum=[...])` on a plain `Optional[str]` only
annotates the OpenAPI schema, so the unrecognized token reaches the handler,
resolves to no sort spec, and a normal listing response is produced. -/
theorem C1_unrecognized_sort_reaches_core :
    sortSpecOf (some "bogus") = none ∧
    list_products none { sort := some "bogus" } =
      some { items := demoItems, total := 3, page := 1, page_size := 12 } := by
  exact ⟨rfl, rfl⟩

/-- C4: with the store unconfigured, page 1 and page size 12, the listing
returns exactly the three demo items with ids demo-1, demo-2, demo-3 and
total 3, identically for every combination of filter parameters. -/
theorem C4_fallback_unfiltered :
    ∀ (q category activity season sustainable : Option String)
      (min_price max_price : Option Rat),
      list_products none
          { q := q, category := category, activity := activity, season := season
            sustainable := sustainable, min_price := min_price, max_price := max_price
            sort := some "relevance", page := 1, page_size := 12 } =
        some { items := demoItems, total := 3, page := 1, page_size := 12 } ∧
      demoItems.map (fun d => d.id) = ["demo-1", "demo-2", "demo-3"] := by
  intro q category activity season sustainable min_price max_price
  exact ⟨rfl, by simp [demoItems, demo1, demo2, demo3]⟩

theorem C4_fallback_unfiltered_witness :
    list_products none
        { q := some "zzz", category := some "x", activity := some "y",
          season := some "s", sustainable := some "e", min_price := some 1,
          max_price := some 2, sort := some "relevance", page := 1, page_size := 12 } =
      some { items := demoItems, total := 3, page := 1, page_size := 12 } :=
  (C4_fallback_unfiltered (some "zzz") (some "x") (some "y") (some "s") (some "e")
    (some 1) (some 2)).1

/-- C5: whenever the impact-stats store read raises any failure or returns no
record, the response is exactly
`{trees_planted: 128450, bottles_recycled: 9723450, carbon_offset_kg: 654321.5}`. -/
theorem C5_impact_fallback (r : Except String (List ImpactDoc))
    (h : (∃ e, r = Except.error e) ∨ r = Except.ok []) :
    get_impact r =
      { trees_planted := 128450, bottles_recycled := 9723450,
        carbon_offset_kg := 654321.5 } := by
  rcases h with ⟨e, rfl⟩ | rfl <;> rfl

theorem C5_impact_fallback_witness :
    get_impact (Except.ok []) =
      { trees_planted := 128450, bottles_recycled := 9723450,
        carbon_offset_kg := 654321.5 } :=
  C5_impact_fallback _ (Or.inr rfl)

/-- C2 counterexample: at page 0, page size 12 on the fallback path the
listing returns 0 items, while the claimed formula
`min(s, max(0, N − (p−1)·s))` gives 12; so the claim's "including for p ≤ 0"
part is false. -/
theorem C2_counterexample :
    list_products none { page := 0, page_size := 12 } =
      some { items := [], total := 3, page := 0, page_size := 12 } ∧
    ¬ ((0 : Int) = min 12 (max 0 (3 - (0 - 1) * 12))) := by
  exact ⟨rfl, by decide⟩

/-- C9 counterexample: on the fallback path with page −1 and page size 1 the
returned items list is `[demo2]`, not empty: the slice bounds are
`demo_items[-2:-1]`, and Python resolves the negative end index to 2, not 0. -/
theorem C9_counterexample :
    list_products none { page := -1, page_size := 1 } =
      some { items := [demo2], total := 3, page := -1, page_size := 1 } ∧
    ([demo2] : List ProductDoc) ≠ [] := by
  exact ⟨rfl, by simp⟩

/-- C9 (amended): on the fallback path, for page ≤ 0 and page_size ≥ 1 the
returned items list is empty whenever page = 0 or page·page_size ≤ −3
(equivalently, in all cases except (page, page_size) ∈
{(−1,1), (−1,2), (−2,1)}, where Python's negative slice indices select one
item), and total is still reported as 3. -/
theorem C9_fallback_nonpositive_page (p : ListParams)
    (_hpage : p.page ≤ 0) (_hps : 1 ≤ p.page_size)
    (h : p.page = 0 ∨ p.page * p.page_size ≤ -3) :
    list_products none p = some (fallbackList p) ∧
    (fallbackList p).items = [] ∧ (fallbackList p).total = 3 := by
  refine ⟨rfl, ?_, rfl⟩
  have hend : pyIdx demoItems.length ((p.page - 1) * p.page_size + p.page_size) = 0 := by
    have he : (p.page - 1) * p.page_size + p.page_size = p.page * p.page_size := by ring
    rw [he, demoItems_length]
    rcases h with h0 | h3
    · rw [h0, zero_mul]
      rfl
    · generalize hX : p.page * p.page_size = X at h3 ⊢
      unfold pyIdx
      rw [if_pos (by omega : X < 0)]
      omega
  show List.take
      (pyIdx demoItems.length ((p.page - 1) * p.page_size + p.page_size) -
        pyIdx demoItems.length ((p.page - 1) * p.page_size))
      (List.drop (pyIdx demoItems.length ((p.page - 1) * p.page_size)) demoItems) = []
  rw [hend]
  simp

theorem applySort_length (s : Option (String × Int)) (l : List ProductDoc) :
    (applySort s l).length = l.length := by
  cases s with
  | none => rfl
  | some sp =>
    show (if sp = ("price", 1) then List.insertionSort priceLe l
        else if sp = ("price", -1) then List.insertionSort priceGe l
        else if sp = ("rating", -1) then List.insertionSort ratingGe l
        else l).length = l.length
    split_ifs <;> simp [List.length_insertionSort]

/-- C2 (amended): for page ≥ 1 and page_size ≥ 0, the number of items
returned is `min(s, max(0, N − (p−1)·s))` and the returned total equals N on
both paths (N = 3 on the fallback path, N = number of documents matching the
predicate on the store-backed path).  The original "including for p ≤ 0" part
fails: see the counterexample. -/
theorem C2_pagination (p : ListParams) (hpage : 1 ≤ p.page) (hps : 0 ≤ p.page_size) :
    (((fallbackList p).items.length : Int) =
        min p.page_size (max 0 (3 - (p.page - 1) * p.page_size)) ∧
      (fallbackList p).total = 3) ∧
    (∀ docs r, list_products (some docs) p = some r →
      ((r.items.length : Int) =
          min p.page_size
            (max 0
              (((docs.filter fun d => matchesFilter (buildFilter p) d).length : Int) -
                (p.page - 1) * p.page_size)) ∧
        r.total = (docs.filter fun d => matchesFilter (buildFilter p) d).length)) := by
  have ha : 0 ≤ (p.page - 1) * p.page_size := mul_nonneg (by omega) hps
  constructor
  · refine ⟨?_, rfl⟩
    show ((List.take
        (pyIdx demoItems.length ((p.page - 1) * p.page_size + p.page_size) -
          pyIdx demoItems.length ((p.page - 1) * p.page_size))
        (List.drop (pyIdx demoItems.length ((p.page - 1) * p.page_size)) demoItems)).length : Int) =
      min p.page_size (max 0 (3 - (p.page - 1) * p.page_size))
    rw [List.length_take, List.length_drop, demoItems_length]
    unfold pyIdx
    rw [if_neg (not_lt.mpr (by linarith : (0:Int) ≤ (p.page - 1) * p.page_size + p.page_size)),
      if_neg (not_lt.mpr ha)]
    revert ha hps
    generalize (p.page - 1) * p.page_size = a
    intro hps ha
    omega
  · intro docs r hr
    replace hr : dbListProducts docs p = some r := hr
    simp only [dbListProducts] at hr
    split at hr
    · exact absurd hr (by simp)
    · rw [Option.some.injEq] at hr
      subst hr
      refine ⟨?_, rfl⟩
      rw [List.length_take, List.length_drop, applySort_length]
      revert ha hps
      generalize (p.page - 1) * p.page_size = a
      generalize (docs.filter fun d => matchesFilter (buildFilter p) d).length = N
      intro hps ha
      omega

theorem C2_pagination_witness :
    (((fallbackList { page := 2, page_size := 2 }).items.length : Int) =
        min (2:Int) (max 0 (3 - (2 - 1) * 2)) ∧
      (fallbackList { page := 2, page_size := 2 }).total = 3) ∧
    ({ items := ([] : List ProductDoc), total := 1, page := 2, page_size := 2 } :
        ListResponse).total =
      ([demo1].filter fun d =>
        matchesFilter (buildFilter { page := 2, page_size := 2 }) d).length := by
  have h := C2_pagination { page := 2, page_size := 2 } (by decide) (by decide)
  exact ⟨h.1,
    (h.2 [demo1] { items := [], total := 1, page := 2, page_size := 2 } rfl).2⟩

theorem C9_fallback_nonpositive_page_witness :
    (fallbackList { page := 0, page_size := 12 }).items = [] ∧
    (fallbackList { page := 0, page_size := 12 }).total = 3 :=
  (C9_fallback_nonpositive_page { page := 0, page_size := 12 }
    (by decide) (by decide) (Or.inl rfl)).2

theorem lowerInfix_iff (n h : String) :
    lowerInfix n h = true ↔ n.toLower.toList <:+: h.toLower.toList := by
  simp only [lowerInfix, List.any_eq_true, List.mem_tails,
    List.isPrefixOf_iff_prefix, List.infix_iff_prefix_suffix]
  exact ⟨fun ⟨t, hs, hp⟩ => ⟨t, hp, hs⟩, fun ⟨t, hp, hs⟩ => ⟨t, hs, hp⟩⟩

/-- C3: with a non-empty `q` (and no other parameter), the built predicate
matches exactly the documents where `q` occurs case-insensitively anywhere in
the title or the description; a document with neither field never matches;
and an absent or empty `q` contributes no `$or` clause at all. -/
theorem C3_q_substring (qs : String) (hq : qs ≠ "") (d : ProductDoc) :
    (matchesFilter (buildFilter { q := some qs }) d = true ↔
      (∃ t, d.title = some t ∧ qs.toLower.toList <:+: t.toLower.toList) ∨
      (∃ s, d.description = some s ∧ qs.toLower.toList <:+: s.toLower.toList)) ∧
    (d.title = none → d.description = none →
      matchesFilter (buildFilter { q := some qs }) d = false) ∧
    (∀ p : ListParams, p.q = none ∨ p.q = some "" → (buildFilter p).qOr = none) := by
  have hbf : buildFilter { q := some qs } = { qOr := some qs } := by
    simp [buildFilter, pyTruthy, hq]
  refine ⟨?_, ?_, ?_⟩
  · rw [hbf]
    cases ht : d.title <;> cases hd : d.description <;>
      simp [matchesFilter, optContainsCI, ht, hd, lowerInfix_iff]
  · intro h1 h2
    rw [hbf]
    simp [matchesFilter, optContainsCI, h1, h2]
  · intro p hp
    rcases hp with h | h <;> simp [buildFilter, pyTruthy, h]

theorem C3_q_substring_witness :
    matchesFilter (buildFilter { q := some "tent" }) { title := some "tent" } = true :=
  (C3_q_substring "tent" (by decide) { title := some "tent" }).1.mpr
    (Or.inl ⟨"tent", rfl, List.infix_refl _⟩)

/-- C6: when every filter parameter is absent (or `None`/empty for the string
parameters), the built predicate matches every document. -/
theorem C6_no_params_match_all (p : ListParams)
    (hq : p.q = none ∨ p.q = some "")
    (hc : p.category = none ∨ p.category = some "")
    (ha : p.activity = none ∨ p.activity = some "")
    (hs : p.season = none ∨ p.season = some "")
    (hsu : p.sustainable = none ∨ p.sustainable = some "")
    (hmin : p.min_price = none) (hmax : p.max_price = none) :
    ∀ d, matchesFilter (buildFilter p) d = true := by
  intro d
  have hbf : buildFilter p = {} := by
    rcases hq with h1 | h1 <;> rcases hc with h2 | h2 <;> rcases ha with h3 | h3 <;>
      rcases hs with h4 | h4 <;> rcases hsu with h5 | h5 <;>
        simp [buildFilter, pyTruthy, h1, h2, h3, h4, h5, hmin, hmax]
  rw [hbf]
  rfl

theorem C6_no_params_match_all_witness :
    matchesFilter (buildFilter {}) {} = true :=
  C6_no_params_match_all {} (Or.inl rfl) (Or.inl rfl) (Or.inl rfl) (Or.inl rfl)
    (Or.inl rfl) rfl rfl {}

/-- C7: whenever the predicate admits a document, a present `min_price` bounds
its price from below and a present `max_price` bounds it from above (each
bound independently; both together give the inclusive range). -/
theorem C7_price_range (p : ListParams) (d : ProductDoc)
    (hm : matchesFilter (buildFilter p) d = true) :
    (∀ lo, p.min_price = some lo → lo ≤ d.price) ∧
    (∀ hi, p.max_price = some hi → d.price ≤ hi) := by
  constructor
  · intro lo hlo
    have hp : (buildFilter p).price = some (some lo, p.max_price) := by
      simp [buildFilter, hlo]
    unfold matchesFilter at hm
    rw [hp] at hm
    simp only [Bool.and_eq_true, decide_eq_true_eq] at hm
    exact hm.2.1
  · intro hi hhi
    have hp : (buildFilter p).price = some (p.min_price, some hi) := by
      simp [buildFilter, hhi]
    unfold matchesFilter at hm
    rw [hp] at hm
    simp only [Bool.and_eq_true, decide_eq_true_eq] at hm
    exact hm.2.2

theorem C7_price_range_witness :
    (10 : Rat) ≤ ({ price := 100 } : ProductDoc).price ∧
    ({ price := 100 } : ProductDoc).price ≤ 500 := by
  have h := C7_price_range { min_price := some 10, max_price := some 500 }
    { price := 100 } (by decide)
  exact ⟨h.1 10 rfl, h.2 500 rfl⟩

theorem sorted_dbItems (docs : List ProductDoc) (p : ListParams) (r : ListResponse)
    (hr : list_products (some docs) p = some r) (rel : ProductDoc → ProductDoc → Prop)
    [DecidableRel rel] [IsTotal ProductDoc rel] [IsTrans ProductDoc rel]
    (hsorted : List.Sorted rel
      (applySort (sortSpecOf p.sort) (docs.filter fun d => matchesFilter (buildFilter p) d))) :
    List.Chain' rel r.items := by
  replace hr : dbListProducts docs p = some r := hr
  simp only [dbListProducts] at hr
  split at hr
  · exact absurd hr (by simp)
  · rw [Option.some.injEq] at hr
    subst hr
    exact (hsorted.sublist ((List.take_sublist _ _).trans (List.drop_sublist _ _))).chain'

/-- C8: the sort-mode resolver maps price_asc/price_desc/highest_rated to the
single ordering keys (price,asc)/(price,desc)/(rating,desc) and maps
relevance, newest, best_sellers and most_sustainable (the default included)
to no ordering; consequently, on the store-backed path every adjacent pair of
returned items is ordered by price ascending under sort=price_asc, price
descending under sort=price_desc, and rating descending under
sort=highest_rated. -/
theorem C8_sort_resolution :
    (sortSpecOf (some "price_asc") = some ("price", 1) ∧
      sortSpecOf (some "price_desc") = some ("price", -1) ∧
      sortSpecOf (some "highest_rated") = some ("rating", -1) ∧
      sortSpecOf (some "relevance") = none ∧
      sortSpecOf (some "newest") = none ∧
      sortSpecOf (some "best_sellers") = none ∧
      sortSpecOf (some "most_sustainable") = none) ∧
    (∀ docs p r, list_products (some docs) p = some r →
      (p.sort = some "price_asc" → List.Chain' priceLe r.items) ∧
      (p.sort = some "price_desc" → List.Chain' priceGe r.items) ∧
      (p.sort = some "highest_rated" → List.Chain' ratingGe r.items)) := by
  refine ⟨⟨rfl, rfl, rfl, rfl, rfl, rfl, rfl⟩, ?_⟩
  intro docs p r hr
  refine ⟨fun hs => sorted_dbItems docs p r hr priceLe ?_,
    fun hs => sorted_dbItems docs p r hr priceGe ?_,
    fun hs => sorted_dbItems docs p r hr ratingGe ?_⟩ <;> rw [hs]
  · exact List.sorted_insertionSort priceLe _
  · exact List.sorted_insertionSort priceGe _
  · exact List.sorted_insertionSort ratingGe _

theorem C8_sort_resolution_witness :
    List.Chain' priceLe
      [({ price := 2, rating := 4 } : ProductDoc), { price := 5, rating := 1 }] ∧
    List.Chain' priceGe
      [({ price := 5, rating := 1 } : ProductDoc), { price := 2, rating := 4 }] ∧
    List.Chain' ratingGe
      [({ price := 2, rating := 4 } : ProductDoc), { price := 5, rating := 1 }] :=
  ⟨(C8_sort_resolution.2 [{ price := 5, rating := 1 }, { price := 2, rating := 4 }]
      { sort := some "price_asc" }
      { items := [{ price := 2, rating := 4 }, { price := 5, rating := 1 }],
        total := 2, page := 1, page_size := 12 } (by decide)).1 rfl,
   (C8_sort_resolution.2 [{ price := 5, rating := 1 }, { price := 2, rating := 4 }]
      { sort := some "price_desc" }
      { items := [{ price := 5, rating := 1 }, { price := 2, rating := 4 }],
        total := 2, page := 1, page_size := 12 } (by decide)).2.1 rfl,
   (C8_sort_resolution.2 [{ price := 5, rating := 1 }, { price := 2, rating := 4 }]
      { sort := some "highest_rated" }
      { items := [{ price := 2, rating := 4 }, { price := 5, rating := 1 }],
        total := 2, page := 1, page_size := 12 } (by decide)).2.2 rfl⟩

theorem dictPop_not_mem (k : String) (dflt : α) (l : List (String × α))
    (h : ∀ kv ∈ l, kv.1 ≠ k) : dictPop k dflt l = (dflt, l) := by
  induction l with
  | nil => rfl
  | cons hd tl ih =>
    obtain ⟨k', v⟩ := hd
    have hh : k' ≠ k := h (k', v) (by simp)
    have ht := ih fun kv hkv => h kv (List.mem_cons_of_mem _ hkv)
    simp [dictPop, hh, ht]

theorem mem_dictSet_iff (k : String) (v : α) (l : List (String × α))
    (kv : String × α) (hne : kv.1 ≠ k) : kv ∈ dictSet k v l ↔ kv ∈ l := by
  induction l with
  | nil =>
    simp only [dictSet, List.mem_singleton, List.not_mem_nil, iff_false]
    intro h
    exact hne (by rw [h])
  | cons hd tl ih =>
    obtain ⟨k', v'⟩ := hd
    have h1 : kv ≠ (k, v) := fun h => hne (by rw [h])
    by_cases hk : k' = k
    · subst hk
      have h2 : kv ≠ (k', v') := fun h => hne (by rw [h])
      simp [dictSet, List.mem_cons, h1, h2]
    · simp [dictSet, hk, List.mem_cons, ih]

/-- C10: the review normalization `item["id"] = str(item.pop("_id", ""))` is
total on documents without an `"_id"` key: the two-argument `pop` returns the
default `""` instead of raising, so the document is emitted with `id` set to
the empty string and every other field unchanged. -/
theorem C10_review_missing_id (strFn : DVal → String) (item : List (String × DVal))
    (hstr : strFn (DVal.str "") = "")
    (hno : ∀ kv ∈ item, kv.1 ≠ "_id") :
    normalizeReviewItem strFn item = dictSet "id" (DVal.str "") item ∧
    (∀ kv ∈ dictSet "id" (DVal.str "") item, kv.1 ≠ "id" → kv ∈ item) ∧
    (∀ kv ∈ item, kv.1 ≠ "id" → kv ∈ dictSet "id" (DVal.str "") item) := by
  refine ⟨?_, ?_, ?_⟩
  · simp [normalizeReviewItem, dictPop_not_mem _ _ _ hno, hstr]
  · intro kv h hne
    exact (mem_dictSet_iff _ _ _ _ hne).mp h
  · intro kv h hne
    exact (mem_dictSet_iff _ _ _ _ hne).mpr h

theorem C10_review_missing_id_witness :
    normalizeReviewItem (fun v => match v with | DVal.str s => s | _ => "")
        [("product_id", DVal.str "p1"), ("title", DVal.str "Great")] =
      [("product_id", DVal.str "p1"), ("title", DVal.str "Great"),
        ("id", DVal.str "")] := by
  have hno : ∀ kv ∈ ([("product_id", DVal.str "p1"), ("title", DVal.str "Great")] :
      List (String × DVal)), kv.1 ≠ "_id" := by
    intro kv hkv
    simp only [List.mem_cons, List.not_mem_nil, or_false] at hkv
    rcases hkv with rfl | rfl <;> decide
  have h := C10_review_missing_id (fun v => match v with | DVal.str s => s | _ => "")
    [("product_id", DVal.str "p1"), ("title", DVal.str "Great")] rfl hno
  rw [h.1]
  rfl

end EcoTrail
